import Mathlib

/-!
Verification of the course-generation and publication workflow of the
CourseGPT repository.

The HTTP route handlers under `src/app/api/` are shallowly embedded as pure
Lean functions: the document store is explicit state (an association list of
course id to course document), server timestamps are a `Nat` parameter `now`,
and the two external clients (the generative text client and the video search
client) are parameters — the raw text / video list they returned is an input
of each handler.

Modelling conventions:
* JavaScript `undefined`/absent fields are `Option.none`.
* JavaScript string truthiness: a string is falsy exactly when it is `""`.
* JSON numbers are kept as their source lexeme (a `String`); no claim depends
  on numeric values, only on JSON structure and string fields.
* Document fields that the workflow only ever writes with string values are
  modelled as `Option String`; values of other JSON types in those fields are
  outside the modelled state space (no claim depends on them).
-/

namespace CourseGpt

/-- JSON values as produced by `JSON.parse`.  Object fields are kept in
insertion order with unique keys (later duplicate keys overwrite the earlier
one in place, as `JSON.parse` does). -/
inductive Json where
  | null : Json
  | bool : Bool → Json
  | num : String → Json
  | str : String → Json
  | arr : List Json → Json
  | obj : List (String × Json) → Json

/-- Field lookup in an object field list (first match; keys are unique). -/
def lookupField : List (String × Json) → String → Option Json
  | [], _ => none
  | (k, v) :: rest, key => if k = key then some v else lookupField rest key

/-- JavaScript member access `j.key` on a parsed value: `undefined` (`none`)
unless `j` is an object with that key. -/
def getField (j : Json) (key : String) : Option Json
  := match j with
  | Json.obj fs => lookupField fs key
  | _ => none

/-- Insert a key into an object field list with `JSON.parse` duplicate-key
semantics: an existing key keeps its position but takes the new value. -/
def insertField : List (String × Json) → String → Json → List (String × Json)
  | [], k, v => [(k, v)]
  | (k0, v0) :: rest, k, v =>
      if k0 = k then (k0, v) :: rest else (k0, v0) :: insertField rest k v

/-- JSON whitespace. -/
def isJsonWs (c : Char) : Bool :=
  c = ' ' || c = '\n' || c = '\r' || c = '\t'

/-- Drop leading JSON whitespace. -/
def skipWs : List Char → List Char
  | [] => []
  | c :: cs => if isJsonWs c then skipWs cs else c :: cs

def isHexDig (c : Char) : Bool :=
  c.isDigit || ('a' ≤ c && c ≤ 'f') || ('A' ≤ c && c ≤ 'F')

def hexVal (c : Char) : Nat :=
  if c.isDigit then c.toNat - '0'.toNat
  else if 'a' ≤ c && c ≤ 'f' then c.toNat - 'a'.toNat + 10
  else c.toNat - 'A'.toNat + 10

/-- Single-character JSON string escapes. -/
def escChar : Char → Option Char
  | '"' => some '"'
  | '\\' => some '\\'
  | '/' => some '/'
  | 'b' => some (Char.ofNat 8)
  | 'f' => some (Char.ofNat 12)
  | 'n' => some '\n'
  | 'r' => some (Char.ofNat 13)
  | 't' => some '\t'
  | _ => none

/-- Body of a JSON string after the opening quote: returns the decoded
characters and the remainder after the closing quote. -/
def parseStrBody : Nat → List Char → Option (List Char × List Char)
  | 0, _ => none
  | _, [] => none
  | fuel + 1, c :: rest =>
    if c = '"' then some ([], rest)
    else if c = '\\' then
      match rest with
      | [] => none
      | e :: rest2 =>
        if e = 'u' then
          match rest2 with
          | a :: b :: c2 :: d :: rest3 =>
            if isHexDig a && isHexDig b && isHexDig c2 && isHexDig d then
              (parseStrBody fuel rest3).map
                (fun p =>
                  (Char.ofNat (4096 * hexVal a + 256 * hexVal b + 16 * hexVal c2 + hexVal d)
                    :: p.1, p.2))
            else none
          | _ => none
        else
          match escChar e with
          | some ec => (parseStrBody fuel rest2).map (fun p => (ec :: p.1, p.2))
          | none => none
    else if c.toNat < 32 then none
    else (parseStrBody fuel rest).map (fun p => (c :: p.1, p.2))

/-- Integer part of a JSON number (after an optional minus sign). -/
def parseIntPart : List Char → Option (List Char × List Char)
  | [] => none
  | c :: r =>
    if c = '0' then
      if (match r with | d :: _ => d.isDigit | [] => false) then none
      else some (['0'], r)
    else if c.isDigit then
      some (c :: r.takeWhile Char.isDigit, r.dropWhile Char.isDigit)
    else none

/-- Optional fraction part of a JSON number. -/
def parseFracPart : List Char → Option (List Char × List Char)
  | '.' :: r =>
    let ds := r.takeWhile Char.isDigit
    if ds.isEmpty then none else some ('.' :: ds, r.dropWhile Char.isDigit)
  | cs => some ([], cs)

/-- Optional exponent part of a JSON number. -/
def parseExpPart : List Char → Option (List Char × List Char)
  | [] => some ([], [])
  | c :: r =>
    if c = 'e' || c = 'E' then
      let p := match r with
        | s :: r3 => if s = '+' || s = '-' then ([s], r3) else (([] : List Char), r)
        | [] => (([] : List Char), r)
      let ds := p.2.takeWhile Char.isDigit
      if ds.isEmpty then none
      else some (c :: p.1 ++ ds, p.2.dropWhile Char.isDigit)
    else some ([], c :: r)

/-- A JSON number; the lexeme is kept verbatim. -/
def parseNumLit (cs : List Char) : Option (Json × List Char) :=
  let p := match cs with
    | '-' :: r => (['-'], r)
    | _ => (([] : List Char), cs)
  match parseIntPart p.2 with
  | none => none
  | some (ip, r1) =>
    match parseFracPart r1 with
    | none => none
    | some (fp, r2) =>
      match parseExpPart r2 with
      | none => none
      | some (ep, r3) => some (Json.num (String.mk (p.1 ++ ip ++ fp ++ ep)), r3)

mutual

/-- A JSON value (leading whitespace allowed); fuel-indexed recursion. -/
def parseVal : Nat → List Char → Option (Json × List Char)
  | 0, _ => none
  | fuel + 1, cs =>
    match skipWs cs with
    | [] => none
    | '{' :: rest => parseObjBody fuel (skipWs rest)
    | '[' :: rest => parseArrBody fuel (skipWs rest)
    | '"' :: rest =>
      (parseStrBody (rest.length + 1) rest).map
        (fun p => (Json.str (String.mk p.1), p.2))
    | 't' :: 'r' :: 'u' :: 'e' :: rest => some (Json.bool true, rest)
    | 'f' :: 'a' :: 'l' :: 's' :: 'e' :: rest => some (Json.bool false, rest)
    | 'n' :: 'u' :: 'l' :: 'l' :: rest => some (Json.null, rest)
    | other => parseNumLit other

/-- Object body after `{` with whitespace skipped. -/
def parseObjBody : Nat → List Char → Option (Json × List Char)
  | 0, _ => none
  | fuel + 1, cs =>
    match cs with
    | '}' :: rest => some (Json.obj [], rest)
    | _ => parseMembers fuel cs []

/-- Members of a JSON object. -/
def parseMembers : Nat → List Char → List (String × Json) → Option (Json × List Char)
  | 0, _, _ => none
  | fuel + 1, cs, acc =>
    match cs with
    | '"' :: rest =>
      (match parseStrBody (rest.length + 1) rest with
      | none => none
      | some (key, rest2) =>
        match skipWs rest2 with
        | ':' :: rest3 =>
          (match parseVal fuel rest3 with
          | none => none
          | some (v, rest4) =>
            let acc2 := insertField acc (String.mk key) v
            match skipWs rest4 with
            | ',' :: rest5 => parseMembers fuel (skipWs rest5) acc2
            | '}' :: rest5 => some (Json.obj acc2, rest5)
            | _ => none)
        | _ => none)
    | _ => none

/-- Array body after `[` with whitespace skipped. -/
def parseArrBody : Nat → List Char → Option (Json × List Char)
  | 0, _ => none
  | fuel + 1, cs =>
    match cs with
    | ']' :: rest => some (Json.arr [], rest)
    | _ => parseElems fuel cs []

/-- Elements of a JSON array. -/
def parseElems : Nat → List Char → List Json → Option (Json × List Char)
  | 0, _, _ => none
  | fuel + 1, cs, acc =>
    match parseVal fuel cs with
    | none => none
    | some (v, rest) =>
      match skipWs rest with
      | ',' :: rest2 => parseElems fuel rest2 (acc ++ [v])
      | ']' :: rest2 => some (Json.arr (acc ++ [v]), rest2)
      | _ => none

end

/-- Model of JavaScript `JSON.parse`: `some` on success, `none` when the
parse throws.  The fuel bound exceeds any possible call depth. -/
def parseJson (s : String) : Option Json :=
  match parseVal (2 * s.length + 16) s.data with
  | some (v, rest) => if (skipWs rest).isEmpty then some v else none
  | none => none

/-- Model of `responseText.match(/\x7b[\s\S]*\x7d/)` from
`src/app/api/generateLesson/chapterContent/route.ts` (both handlers): the
leftmost-greedy match runs from the first opening brace to the last closing
brace of the whole text, and exists exactly when some closing brace follows
the first opening brace. -/
def extractGreedy (s : String) : Option String :=
  let afterFirst := s.data.dropWhile (fun c => c ≠ '{')
  let trimmed := (afterFirst.reverse.dropWhile (fun c => c ≠ '}')).reverse
  if trimmed.isEmpty then none else some (String.mk trimmed)

/-- The parse policy shared by the course-generation and chapter-content
handlers: parse the greedy brace span if the regex matched, otherwise parse
the whole response text; `none` models the caught exception path. -/
def parseAiJson (text : String) : Option Json :=
  match extractGreedy text with
  | some s => parseJson s
  | none => parseJson text

/-- Spec-side definition, modelled from the spec's words (section 4.1,
"locate the first `\x7b...\x7d` balanced-brace span in the text and parse
that as JSON"): scan to the first opening brace and take characters up to
the brace-matching closing brace.  It exists only to be compared with the
source-derived `extractGreedy`. -/
def balancedFrom : List Char → Nat → List Char → Option (List Char)
  | [], _, _ => none
  | c :: rest, depth, acc =>
    if c = '{' then balancedFrom rest (depth + 1) (c :: acc)
    else if c = '}' then
      if depth = 1 then some (c :: acc).reverse
      else balancedFrom rest (depth - 1) (c :: acc)
    else balancedFrom rest depth (c :: acc)

/-- Spec-side definition (see `balancedFrom`): the first balanced-brace
span of a text. -/
def firstBalancedSpan (s : String) : Option String :=
  (balancedFrom (s.data.dropWhile (fun c => c ≠ '{')) 0 []).map String.mk

/-- A chapter embedded in `Course.chapters`.  All fields are optional:
generation writes the first three, content generation writes `content`,
video enrichment writes `youtubeVideos`. -/
structure Chapter where
  chapterName : Option String
  about : Option String
  duration : Option String
  content : Option Json
  youtubeVideos : Option (List String)

/-- A course document, fields in the order of the `courseData` literal of
the generation handler plus `publishedAt` (absent until publish).  A list
entry `none` in `chapters` is a JavaScript array hole / `undefined`
element, as produced by an out-of-range index assignment. -/
structure Course where
  userId : Option String
  courseName : Option String
  description : Option String
  category : Option String
  topic : Option String
  level : Option String
  duration : Option String
  noOfChapters : Option Nat
  chapters : List (Option Chapter)
  includeYoutube : Option Bool
  status : Option String
  createdAt : Option Nat
  updatedAt : Option Nat
  publishedAt : Option Nat

/-- The "courses" collection of the document store. -/
abbrev Store := List (String × Course)

/-- `getDoc`: fetch a course document by id. -/
def Store.lookup : Store → String → Option Course
  | [], _ => none
  | (k, v) :: rest, cid => if k = cid then some v else Store.lookup rest cid

/-- `updateDoc`/`addDoc` write: replace the document at an id, or insert it
if absent.  This write is reached only with Firestore-representable data:
the two chapter-merge handlers model the SDK's rejection of `undefined`
array elements before reaching it (see `chapterContentPost`), and every
other written value comes from a parsed JSON body, which never contains
`undefined`. -/
def Store.set : Store → String → Course → Store
  | [], cid, c => [(cid, c)]
  | (k, v) :: rest, cid, c =>
      if k = cid then (cid, c) :: rest else (k, v) :: Store.set rest cid c

/-- JavaScript array read `l[i]`: `undefined` past the end or at a hole. -/
def jsGetIdx : List (Option Chapter) → Nat → Option Chapter
  | [], _ => none
  | x :: _, 0 => x
  | _ :: rest, n + 1 => jsGetIdx rest n

/-- JavaScript array write `l[i] = v`: in range it replaces the element,
past the end it extends the array, filling the gap with holes. -/
def jsSetIdx : List (Option Chapter) → Nat → Chapter → List (Option Chapter)
  | [], 0, v => [some v]
  | [], n + 1, v => none :: jsSetIdx [] n v
  | _ :: rest, 0, v => some v :: rest
  | x :: rest, n + 1, v => x :: jsSetIdx rest n v

/-- The object spread `\x7b...chapters[i], content: c\x7d`: spreading
`undefined` contributes nothing. -/
def withContent (old : Option Chapter) (c : Option Json) : Chapter :=
  match old with
  | some ch => ⟨ch.chapterName, ch.about, ch.duration, c, ch.youtubeVideos⟩
  | none => ⟨none, none, none, c, none⟩

/-- The object spread `\x7b...chapters[i], youtubeVideos: ids\x7d`. -/
def withVideos (old : Option Chapter) (ids : List String) : Chapter :=
  match old with
  | some ch => ⟨ch.chapterName, ch.about, ch.duration, ch.content, some ids⟩
  | none => ⟨none, none, none, none, some ids⟩

/-- The result of a route handler: a success body, or the JSON error shape
with its HTTP status code. -/
inductive RouteResult (α : Type) where
  | success : α → RouteResult α
  | error : Nat → String → RouteResult α

/-- Decode `some (Json.str s)` to `some s`. -/
def asStr : Option Json → Option String
  | some (Json.str s) => some s
  | _ => none

/-- Decode a JSON array of strings; `none` for anything else.  (A non-string
entry would be stored verbatim by the real code; such values are outside the
modelled state space and no claim depends on them.) -/
def seqStrs : List Json → Option (List String)
  | [] => some []
  | Json.str s :: rest =>
      match seqStrs rest with
      | some l => some (s :: l)
      | none => none
  | _ :: _ => none

def asStrList (j : Option Json) : Option (List String) :=
  match j with
  | some (Json.arr xs) => seqStrs xs
  | _ => none

/-- One chapter object of the parsed AI course structure, taken verbatim
into the course document (string-typed fields modelled as `Option String`,
see the header). -/
def decodeChapter (j : Json) : Chapter :=
  ⟨asStr (getField j "chapterName"), asStr (getField j "about"),
    asStr (getField j "duration"), getField j "content",
    asStrList (getField j "youtubeVideos")⟩

/-- The `chapters` field of the parsed AI course structure, stored verbatim
(`courseStructure.chapters` in the source; a missing or non-array value is
outside the modelled state space). -/
def decodeChapters (j : Option Json) : List (Option Chapter) :=
  match j with
  | some (Json.arr xs) => xs.map (fun x => some (decodeChapter x))
  | _ => []

/-- JavaScript `a || b` for string-or-undefined values (`""` is falsy). -/
def jsOrStr (a : Option String) (b : Option String) : Option String :=
  match a with
  | some s => if s = "" then b else some s
  | none => b

/-- JavaScript truthiness of a string-or-undefined value. -/
def jsTruthy (a : Option String) : Bool :=
  match a with
  | some s => s ≠ ""
  | none => false

/-- Request body of the chapter-content handler
(`src/app/api/generateLesson/chapterContent/route.ts`); a `none` field is a
missing (`undefined`) body field, `chapterIndex === undefined` is
`chapterIndex = none`. -/
structure ChapterReq where
  userId : String
  courseId : String
  chapterIndex : Option Nat
  chapterName : String
  courseTopic : String
  difficulty : String

/-- Success body of the chapter-content handler: `courseId`,
`chapterIndex`, and the spread of the parsed object. -/
structure ChapterContentBody where
  courseId : String
  chapterIndex : Nat
  payload : Json

/-- The course document after the chapter-content merge: the copied
`chapters` array with `chapters[idx]` replaced by the spread
`\x7b...chapters[idx], content: parsed.content\x7d`, written back together
with a refreshed `updatedAt`. -/
def contentMergedCourse (course : Course) (parsed : Json) (idx : Nat)
    (now : Nat) : Course :=
  ⟨course.userId, course.courseName, course.description, course.category,
    course.topic, course.level, course.duration, course.noOfChapters,
    jsSetIdx course.chapters idx
      (withContent (jsGetIdx course.chapters idx) (getField parsed "content")),
    course.includeYoutube, course.status, course.createdAt, some now,
    course.publishedAt⟩

/-- `POST /api/generateLesson/chapterContent`
(`src/app/api/generateLesson/chapterContent/route.ts`).  `aiText` is the raw
text returned by `generateCourseContent`, `now` the server timestamp.

The awaited `updateDoc` deterministically throws on `undefined` values (the
app creates its client with plain `getFirestore`, no
`ignoreUndefinedProperties`), and the outer catch converts that into the
route's generic 500.  Stored documents are Firestore data and therefore
hole-free, so the written `chapters` array contains `undefined` elements
exactly when the index assignment skipped positions — when
`chapterIndex > chapters.length`; the guard below models that throw. -/
def chapterContentPost (store : Store) (req : ChapterReq) (aiText : String)
    (now : Nat) : Store × RouteResult ChapterContentBody :=
  if req.userId = "" ∨ req.courseId = "" ∨ req.chapterIndex = none ∨
      req.chapterName = "" ∨ req.courseTopic = "" ∨ req.difficulty = "" then
    (store, RouteResult.error 400 "Missing required fields")
  else
    match store.lookup req.courseId with
    | none => (store, RouteResult.error 404 "Course not found")
    | some course =>
      if course.userId ≠ some req.userId then
        (store, RouteResult.error 403 "Unauthorized")
      else
        match parseAiJson aiText with
        | none => (store, RouteResult.error 500 "Failed to parse chapter content")
        | some parsed =>
          match req.chapterIndex with
          | none => (store, RouteResult.error 400 "Missing required fields")
          | some idx =>
            if course.chapters.length < idx then
              (store, RouteResult.error 500 "Failed to generate chapter content")
            else
              (store.set req.courseId (contentMergedCourse course parsed idx now),
                RouteResult.success ⟨req.courseId, idx, parsed⟩)

/-- Request body of the course-generation handler (same route file,
course-generation `POST`). -/
structure GenReq where
  userId : String
  category : String
  topic : String
  description : Option String
  difficulty : String
  duration : String
  includeYoutube : Option Bool
  chapterCount : Option Nat

/-- Success body of the course-generation handler: the new id and the
course document. -/
structure GenBody where
  courseId : String
  course : Course

/-- The `courseData` literal of the course-generation handler: a new draft
course built from the request and the parsed AI response. -/
def genCourseDoc (req : GenReq) (parsed : Json) (now : Nat) : Course :=
  ⟨some req.userId,
    asStr (getField parsed "courseName"),
    jsOrStr (asStr (getField parsed "description")) req.description,
    some req.category, some req.topic, some req.difficulty,
    some req.duration, req.chapterCount,
    decodeChapters (getField parsed "chapters"),
    req.includeYoutube, some "draft", some now, some now, none⟩

/-- `POST /api/generateLesson` (course generation, second document of
`src/app/api/generateLesson/chapterContent/route.ts`).  `newId` is the
store-assigned id of `addDoc` (always fresh in the real store). -/
def generateCoursePost (store : Store) (req : GenReq) (aiText : String)
    (now : Nat) (newId : String) : Store × RouteResult GenBody :=
  if req.userId = "" ∨ req.category = "" ∨ req.topic = "" ∨
      req.difficulty = "" ∨ req.duration = "" then
    (store, RouteResult.error 400 "Missing required fields")
  else
    match parseAiJson aiText with
    | none => (store, RouteResult.error 500 "Failed to parse course structure")
    | some parsed =>
      (store.set newId (genCourseDoc req parsed now),
        RouteResult.success ⟨newId, genCourseDoc req parsed now⟩)

/-- Request body of the video-fetch handler
(`src/app/api/fetchYoutube/route.ts`); `difficulty` is not validated and
may be absent. -/
structure VideoReq where
  userId : String
  courseId : String
  chapterIndex : Option Nat
  chapterName : String
  courseTopic : String
  difficulty : Option String

/-- The nested `video.id.videoId` shape of the Video Search Client. -/
structure VideoIdObj where
  videoId : String

structure YouTubeVideo where
  id : VideoIdObj

/-- The search string `"topic chapter difficulty tutorial"` built by the
video-fetch handler (`difficulty || ""`). -/
def searchQueryOf (r : VideoReq) : String :=
  r.courseTopic ++ " " ++ r.chapterName ++ " " ++ (r.difficulty.getD "") ++ " tutorial"

/-- Success body of the video-fetch handler. -/
structure VideoBody where
  courseId : String
  chapterIndex : Nat
  videoIds : List String

/-- The course document after the video merge: `chapters[idx]` replaced by
the spread `\x7b...chapters[idx], youtubeVideos: videoIds\x7d`, with a
refreshed `updatedAt`. -/
def videoMergedCourse (course : Course) (videoIds : List String) (idx : Nat)
    (now : Nat) : Course :=
  ⟨course.userId, course.courseName, course.description, course.category,
    course.topic, course.level, course.duration, course.noOfChapters,
    jsSetIdx course.chapters idx
      (withVideos (jsGetIdx course.chapters idx) videoIds),
    course.includeYoutube, course.status, course.createdAt, some now,
    course.publishedAt⟩

/-- `POST /api/fetchYoutube` (`src/app/api/fetchYoutube/route.ts`).
`videos` is the list returned by `fetchYoutubeVideos` for the search
query.  The guard on `chapterIndex > chapters.length` models `updateDoc`
throwing on the `undefined` array elements created by a skipping index
assignment, caught as this route's generic 500 (see
`chapterContentPost`). -/
def fetchYoutubePost (store : Store) (req : VideoReq)
    (videos : List YouTubeVideo) (now : Nat) : Store × RouteResult VideoBody :=
  if req.userId = "" ∨ req.courseId = "" ∨ req.chapterIndex = none ∨
      req.chapterName = "" ∨ req.courseTopic = "" then
    (store, RouteResult.error 400 "Missing required fields")
  else
    match store.lookup req.courseId with
    | none => (store, RouteResult.error 404 "Course not found")
    | some course =>
      if course.userId ≠ some req.userId then
        (store, RouteResult.error 403 "Unauthorized")
      else
        match req.chapterIndex with
        | none => (store, RouteResult.error 400 "Missing required fields")
        | some idx =>
          if course.chapters.length < idx then
            (store, RouteResult.error 500 "Failed to fetch YouTube videos")
          else
            (store.set req.courseId
                (videoMergedCourse course (videos.map (fun v => v.id.videoId)) idx now),
              RouteResult.success
                ⟨req.courseId, idx, videos.map (fun v => v.id.videoId)⟩)

/-- Success body of the publish handler. -/
structure PublishBody where
  success : Bool
  message : String
  courseId : String

/-- The unconditional publish write: `status = "published"`, `publishedAt`
and `updatedAt` stamped with the current server time. -/
def publishedCourse (course : Course) (now : Nat) : Course :=
  ⟨course.userId, course.courseName, course.description, course.category,
    course.topic, course.level, course.duration, course.noOfChapters,
    course.chapters, course.includeYoutube, some "published",
    course.createdAt, some now, some now⟩

/-- `POST /api/courses/[courseId]/publish`
(`src/app/api/courses/[courseId]/publish/route.ts`).  `userId` is the body
field (possibly absent). -/
def publishPost (store : Store) (courseId : String) (userId : Option String)
    (now : Nat) : Store × RouteResult PublishBody :=
  if jsTruthy userId = false then
    (store, RouteResult.error 400 "User ID is required")
  else
    match store.lookup courseId with
    | none => (store, RouteResult.error 404 "Course not found")
    | some course =>
      if course.userId ≠ userId then
        (store, RouteResult.error 403 "Unauthorized")
      else
        (store.set courseId (publishedCourse course now),
          RouteResult.success ⟨true, "Course published successfully", courseId⟩)

/-- A PUT request body: arbitrary partial course fields (a `some` field is
present in the body).  `updatedAt` is omitted because the spread
`\x7b...body, updatedAt: serverTimestamp()\x7d` always overwrites it. -/
structure CourseUpdate where
  userId : Option String
  courseName : Option String
  description : Option String
  category : Option String
  topic : Option String
  level : Option String
  duration : Option String
  noOfChapters : Option Nat
  chapters : Option (List (Option Chapter))
  includeYoutube : Option Bool
  status : Option String
  createdAt : Option Nat
  publishedAt : Option Nat

/-- A body field overwrites the stored field when present. -/
def mergeField {α : Type} : Option α → Option α → Option α
  | some x, _ => some x
  | none, y => y

/-- `updateDoc(courseRef, \x7b...body, updatedAt: serverTimestamp()\x7d)`. -/
def applyUpdate (c : Course) (u : CourseUpdate) (now : Nat) : Course :=
  ⟨mergeField u.userId c.userId, mergeField u.courseName c.courseName,
    mergeField u.description c.description, mergeField u.category c.category,
    mergeField u.topic c.topic, mergeField u.level c.level,
    mergeField u.duration c.duration, mergeField u.noOfChapters c.noOfChapters,
    (mergeField u.chapters (some c.chapters)).getD [],
    mergeField u.includeYoutube c.includeYoutube,
    mergeField u.status c.status, mergeField u.createdAt c.createdAt,
    some now, mergeField u.publishedAt c.publishedAt⟩

/-- Success body of the PUT handler. -/
structure PutBody where
  success : Bool
  courseId : String

/-- `PUT /api/courses/[courseId]`
(`src/app/api/courses/[courseId]/route.ts`). -/
def putCourse (store : Store) (courseId : String) (body : CourseUpdate)
    (now : Nat) : Store × RouteResult PutBody :=
  match store.lookup courseId with
  | none => (store, RouteResult.error 404 "Course not found")
  | some course =>
    if jsTruthy body.userId ∧ course.userId ≠ body.userId then
      (store, RouteResult.error 403 "Unauthorized")
    else
      (store.set courseId (applyUpdate course body now),
        RouteResult.success ⟨true, courseId⟩)

/-- One specified operation of the workflow, with the external inputs
(AI text, video list, timestamps, fresh id) it consumed. -/
inductive Op where
  | generate : GenReq → String → Nat → String → Op
  | chapterContent : ChapterReq → String → Nat → Op
  | fetchVideos : VideoReq → List YouTubeVideo → Nat → Op
  | publish : String → Option String → Nat → Op
  | putUpdate : String → CourseUpdate → Nat → Op

/-- The store after one operation. -/
def applyOp (s : Store) (op : Op) : Store :=
  match op with
  | Op.generate req aiText now newId => (generateCoursePost s req aiText now newId).1
  | Op.chapterContent req aiText now => (chapterContentPost s req aiText now).1
  | Op.fetchVideos req videos now => (fetchYoutubePost s req videos now).1
  | Op.publish cid uid now => (publishPost s cid uid now).1
  | Op.putUpdate cid body now => (putCourse s cid body now).1

/-- The operation carries a PUT body with a `status` field. -/
def opSetsStatusFromBody : Op → Bool
  | Op.putUpdate _ body _ => body.status.isSome
  | _ => false

/-- The fresh-id contract of `addDoc`: a generated id never collides with
an existing document. -/
def opFreshOk (s : Store) : Op → Prop
  | Op.generate _ _ _ newId => s.lookup newId = none
  | _ => True

theorem lookup_set_self (s : Store) (cid : String) (c : Course) :
    (s.set cid c).lookup cid = some c := by
  induction s with
  | nil => simp [Store.set, Store.lookup]
  | cons kv rest ih =>
    obtain ⟨k, v⟩ := kv
    by_cases h : k = cid
    · simp [Store.set, Store.lookup, h]
    · simp [Store.set, Store.lookup, h, ih]

theorem lookup_set_ne (s : Store) (cid cid' : String) (c : Course)
    (h : cid ≠ cid') : (s.set cid c).lookup cid' = s.lookup cid' := by
  induction s with
  | nil => simp [Store.set, Store.lookup, h]
  | cons kv rest ih =>
    obtain ⟨k, v⟩ := kv
    by_cases hk : k = cid
    · subst hk; simp [Store.set, Store.lookup, h]
    · simp only [Store.set, if_neg hk]
      by_cases hk' : k = cid'
      · simp [Store.lookup, hk']
      · simp [Store.lookup, hk', ih]

theorem jsGetIdx_jsSetIdx_self (l : List (Option Chapter)) (i : Nat) (v : Chapter) :
    jsGetIdx (jsSetIdx l i v) i = some v := by
  induction i generalizing l with
  | zero => cases l <;> rfl
  | succ n ih =>
    cases l with
    | nil => simpa [jsSetIdx, jsGetIdx] using ih []
    | cons x rest => simpa [jsSetIdx, jsGetIdx] using ih rest

theorem length_jsSetIdx_of_lt (l : List (Option Chapter)) (i : Nat) (v : Chapter)
    (h : i < l.length) : (jsSetIdx l i v).length = l.length := by
  induction i generalizing l with
  | zero =>
    cases l with
    | nil => simp at h
    | cons x rest => simp [jsSetIdx]
  | succ n ih =>
    cases l with
    | nil => simp at h
    | cons x rest =>
      have := ih rest (by simpa using h)
      simp [jsSetIdx, this]

theorem dropWhile_head_false {p : Char → Bool} :
    ∀ (l : List Char) (x : Char) (xs : List Char),
      l.dropWhile p = x :: xs → p x = false := by
  intro l
  induction l with
  | nil => intro x xs h; simp [List.dropWhile] at h
  | cons c cs ih =>
    intro x xs h
    by_cases hc : p c
    · rw [List.dropWhile_cons_of_pos hc] at h; exact ih x xs h
    · rw [List.dropWhile_cons_of_neg hc] at h
      cases h; simpa using hc

/-- Structure of the greedy regex match: the text splits into a prefix with
no opening brace, the matched span, and a suffix with no closing brace; and
the span itself starts with `\x7b` and ends with `\x7d`. -/
theorem extractGreedy_decomp (t sp : String) (h : extractGreedy t = some sp) :
    ∃ a b : List Char, t.data = a ++ sp.data ++ b ∧ '{' ∉ a ∧ '}' ∉ b ∧
      ∃ m : List Char, sp.data = '{' :: m ++ ['}'] := by
  have h0 : (if (((t.data.dropWhile (fun c => c ≠ '{')).reverse.dropWhile
        (fun c => c ≠ '}')).reverse).isEmpty
      then none
      else some (String.mk (((t.data.dropWhile (fun c => c ≠ '{')).reverse.dropWhile
        (fun c => c ≠ '}')).reverse))) = some sp := h
  clear h
  set afterFirst := t.data.dropWhile (fun c => c ≠ '{') with hAF
  set trimmed := (afterFirst.reverse.dropWhile (fun c => c ≠ '}')).reverse with hTR
  cases hemp : trimmed.isEmpty with
  | true => rw [hemp] at h0; simp at h0
  | false =>
    rw [hemp] at h0
    simp only [Bool.false_eq_true, if_false, Option.some.injEq] at h0
    have hspdata : sp.data = trimmed := by rw [← h0]
    have hpre : trimmed ++ (afterFirst.reverse.takeWhile (fun c => c ≠ '}')).reverse
        = afterFirst := by
      rw [hTR, ← List.reverse_append, List.takeWhile_append_dropWhile,
        List.reverse_reverse]
    refine ⟨t.data.takeWhile (fun c => c ≠ '{'),
      (afterFirst.reverse.takeWhile (fun c => c ≠ '}')).reverse, ?_, ?_, ?_, ?_⟩
    · rw [hspdata]
      have h1 : t.data.takeWhile (fun c => c ≠ '{') ++
          t.data.dropWhile (fun c => c ≠ '{') = t.data :=
        List.takeWhile_append_dropWhile _ _
      calc t.data = t.data.takeWhile (fun c => c ≠ '{') ++ afterFirst := by
            rw [hAF]; rw [h1]
        _ = t.data.takeWhile (fun c => c ≠ '{') ++
              (trimmed ++ (afterFirst.reverse.takeWhile (fun c => c ≠ '}')).reverse) := by
            rw [hpre]
        _ = _ := by rw [List.append_assoc]
    · intro hmem
      have := List.mem_takeWhile_imp hmem
      simp at this
    · intro hmem
      rw [List.mem_reverse] at hmem
      have := List.mem_takeWhile_imp hmem
      simp at this
    · -- the span starts with the first '{' and ends with the last '}'
      rw [hspdata]
      have hne : trimmed ≠ [] := by
        intro hx; rw [hx] at hemp; simp at hemp
      obtain ⟨y, ys, hys⟩ : ∃ y ys,
          afterFirst.reverse.dropWhile (fun c => c ≠ '}') = y :: ys := by
        cases hd : afterFirst.reverse.dropWhile (fun c => c ≠ '}') with
        | nil => exact absurd (by rw [hTR, hd]; rfl) hne
        | cons y ys => exact ⟨y, ys, rfl⟩
      have hy : y = '}' := by
        have := dropWhile_head_false _ _ _ hys
        simpa using this
      obtain ⟨z, zs, hzs⟩ : ∃ z zs, trimmed = z :: zs := by
        cases htr : trimmed with
        | nil => exact absurd htr hne
        | cons z zs => exact ⟨z, zs, rfl⟩
      have hz : z = '{' := by
        have hAF2 : t.data.dropWhile (fun c => c ≠ '{') =
            z :: (zs ++ (afterFirst.reverse.takeWhile (fun c => c ≠ '}')).reverse) := by
          rw [← hAF]
          conv_lhs => rw [← hpre, hzs]
          rw [List.cons_append]
        have := dropWhile_head_false _ _ _ hAF2
        simpa using this
      have htrim2 : trimmed = ys.reverse ++ [y] := by
        rw [hTR, hys]; simp
      rw [hzs] at htrim2
      cases hys2 : ys.reverse with
      | nil =>
        rw [hys2] at htrim2
        simp only [List.nil_append, List.cons.injEq] at htrim2
        rw [hz, hy] at htrim2
        exact absurd htrim2.1 (by decide)
      | cons w ws =>
        rw [hys2] at htrim2
        simp only [List.cons_append, List.cons.injEq] at htrim2
        refine ⟨ws, ?_⟩
        rw [hzs, hz, htrim2.2, hy]
        simp

/-- A text with no opening brace has no greedy regex match. -/
theorem extractGreedy_none_of_no_open (s : String) (h : '{' ∉ s.data) :
    extractGreedy s = none := by
  have hdw : s.data.dropWhile (fun c => c ≠ '{') = [] := by
    rw [List.dropWhile_eq_nil_iff]
    intro x hx
    simp only [decide_eq_true_eq]
    intro hxe
    exact h (hxe ▸ hx)
  show (if (((s.data.dropWhile (fun c => c ≠ '{')).reverse.dropWhile
      (fun c => c ≠ '}')).reverse).isEmpty
    then none
    else some (String.mk (((s.data.dropWhile (fun c => c ≠ '{')).reverse.dropWhile
      (fun c => c ≠ '}')).reverse))) = none
  rw [hdw]
  rfl

/-- The chapter-content handler never changes any course's `status`. -/
theorem chapterContent_preserves_status (s : Store) (req : ChapterReq)
    (t : String) (now : Nat) (cid : String) :
    ((chapterContentPost s req t now).1.lookup cid).map Course.status
      = (s.lookup cid).map Course.status := by
  unfold chapterContentPost
  split
  · rfl
  · split
    · rfl
    · next course heq =>
      split
      · rfl
      · split
        · rfl
        · next parsed hp =>
          split
          · rfl
          · next idx hidx =>
            split
            · rfl
            · by_cases hc : req.courseId = cid
              · subst hc
                show ((s.set req.courseId
                    (contentMergedCourse course parsed idx now)).lookup
                    req.courseId).map Course.status = _
                rw [lookup_set_self, heq]
                rfl
              · show ((s.set req.courseId
                    (contentMergedCourse course parsed idx now)).lookup
                    cid).map Course.status = _
                rw [lookup_set_ne _ _ _ _ hc]

/-- The video-fetch handler never changes any course's `status`. -/
theorem fetchVideos_preserves_status (s : Store) (req : VideoReq)
    (videos : List YouTubeVideo) (now : Nat) (cid : String) :
    ((fetchYoutubePost s req videos now).1.lookup cid).map Course.status
      = (s.lookup cid).map Course.status := by
  unfold fetchYoutubePost
  split
  · rfl
  · split
    · rfl
    · next course heq =>
      split
      · rfl
      · split
        · rfl
        · next idx hidx =>
          split
          · rfl
          · by_cases hc : req.courseId = cid
            · subst hc
              show ((s.set req.courseId
                  (videoMergedCourse course (videos.map (fun v => v.id.videoId))
                    idx now)).lookup req.courseId).map Course.status = _
              rw [lookup_set_self, heq]
              rfl
            · show ((s.set req.courseId
                  (videoMergedCourse course (videos.map (fun v => v.id.videoId))
                    idx now)).lookup cid).map Course.status = _
              rw [lookup_set_ne _ _ _ _ hc]

/-- The publish handler only ever writes `status = "published"`: a
published course stays published. -/
theorem publish_keeps_published (s : Store) (pcid : String)
    (uid : Option String) (now : Nat) (cid : String) (c : Course)
    (hc : s.lookup cid = some c) (hpub : c.status = some "published") :
    ((publishPost s pcid uid now).1.lookup cid).map Course.status
      = some (some "published") := by
  unfold publishPost
  split
  · rw [hc]; simp [hpub]
  · split
    · rw [hc]; simp [hpub]
    · next course heq =>
      split
      · rw [hc]; simp [hpub]
      · by_cases hid : pcid = cid
        · subst hid
          show ((s.set pcid (publishedCourse course now)).lookup pcid).map
              Course.status = _
          rw [lookup_set_self]
          rfl
        · show ((s.set pcid (publishedCourse course now)).lookup cid).map
              Course.status = _
          rw [lookup_set_ne _ _ _ _ hid, hc]; simp [hpub]

/-- A PUT whose body carries no `status` field never changes any course's
`status`. -/
theorem putUpdate_preserves_status (s : Store) (pcid : String)
    (body : CourseUpdate) (now : Nat) (cid : String)
    (hnb : body.status = none) :
    ((putCourse s pcid body now).1.lookup cid).map Course.status
      = (s.lookup cid).map Course.status := by
  unfold putCourse
  split
  · rfl
  · next course heq =>
    split
    · rfl
    · by_cases hid : pcid = cid
      · subst hid
        show ((s.set pcid (applyUpdate course body now)).lookup pcid).map
            Course.status = _
        rw [lookup_set_self, heq]
        show some (mergeField body.status course.status) = some course.status
        rw [hnb]
        rfl
      · show ((s.set pcid (applyUpdate course body now)).lookup cid).map
            Course.status = _
        rw [lookup_set_ne _ _ _ _ hid]

theorem withVideos_youtubeVideos (old : Option Chapter) (ids : List String) :
    (withVideos old ids).youtubeVideos = some ids := by
  cases old <;> rfl

/-- The chapter-content handler on a valid, owned request with a parse
failure: 500 and no store write. -/
theorem chapterContentPost_parse_fail (s : Store) (req : ChapterReq)
    (t : String) (now : Nat) (c : Course)
    (hval : ¬(req.userId = "" ∨ req.courseId = "" ∨ req.chapterIndex = none ∨
      req.chapterName = "" ∨ req.courseTopic = "" ∨ req.difficulty = ""))
    (hlook : s.lookup req.courseId = some c)
    (hauth : c.userId = some req.userId)
    (hparse : parseAiJson t = none) :
    chapterContentPost s req t now =
      (s, RouteResult.error 500 "Failed to parse chapter content") := by
  unfold chapterContentPost
  rw [if_neg hval, hlook]
  dsimp only
  rw [if_neg (by simp [hauth]), hparse]

/-- The chapter-content handler 403 path: present, non-owner `userId`. -/
theorem chapterContentPost_403 (s : Store) (req : ChapterReq) (t : String)
    (now : Nat) (c : Course)
    (hval : ¬(req.userId = "" ∨ req.courseId = "" ∨ req.chapterIndex = none ∨
      req.chapterName = "" ∨ req.courseTopic = "" ∨ req.difficulty = ""))
    (hlook : s.lookup req.courseId = some c)
    (hne : c.userId ≠ some req.userId) :
    chapterContentPost s req t now = (s, RouteResult.error 403 "Unauthorized") := by
  unfold chapterContentPost
  rw [if_neg hval, hlook]
  dsimp only
  rw [if_pos hne]

/-- The video-fetch handler on a valid, owned request with a non-skipping
index: the merged course is written and the identifier list echoed. -/
theorem fetchYoutubePost_success (s : Store) (req : VideoReq)
    (videos : List YouTubeVideo) (now : Nat) (c : Course) (idx : Nat)
    (hval : ¬(req.userId = "" ∨ req.courseId = "" ∨ req.chapterIndex = none ∨
      req.chapterName = "" ∨ req.courseTopic = ""))
    (hidx : req.chapterIndex = some idx)
    (hlook : s.lookup req.courseId = some c)
    (hauth : c.userId = some req.userId)
    (hle : idx ≤ c.chapters.length) :
    fetchYoutubePost s req videos now =
      (s.set req.courseId
          (videoMergedCourse c (videos.map (fun v => v.id.videoId)) idx now),
        RouteResult.success
          ⟨req.courseId, idx, videos.map (fun v => v.id.videoId)⟩) := by
  unfold fetchYoutubePost
  rw [if_neg hval, hlook]
  dsimp only
  rw [if_neg (by simp [hauth]), hidx]
  dsimp only
  rw [if_neg (Nat.not_lt.mpr hle)]

/-- The video-fetch handler 403 path. -/
theorem fetchYoutubePost_403 (s : Store) (req : VideoReq)
    (videos : List YouTubeVideo) (now : Nat) (c : Course)
    (hval : ¬(req.userId = "" ∨ req.courseId = "" ∨ req.chapterIndex = none ∨
      req.chapterName = "" ∨ req.courseTopic = ""))
    (hlook : s.lookup req.courseId = some c)
    (hne : c.userId ≠ some req.userId) :
    fetchYoutubePost s req videos now = (s, RouteResult.error 403 "Unauthorized") := by
  unfold fetchYoutubePost
  rw [if_neg hval, hlook]
  dsimp only
  rw [if_pos hne]

/-- The publish handler on a truthy owner `userId`: the unconditional
status write. -/
theorem publishPost_success (s : Store) (cid u : String) (now : Nat) (c : Course)
    (hu : u ≠ "")
    (hlook : s.lookup cid = some c)
    (hauth : c.userId = some u) :
    publishPost s cid (some u) now =
      (s.set cid (publishedCourse c now),
        RouteResult.success ⟨true, "Course published successfully", cid⟩) := by
  unfold publishPost
  rw [if_neg (by simp [jsTruthy, hu]), hlook]
  dsimp only
  rw [if_neg (by simp [hauth])]

/-- The publish handler 403 path. -/
theorem publishPost_403 (s : Store) (cid u : String) (now : Nat) (c : Course)
    (hu : u ≠ "")
    (hlook : s.lookup cid = some c)
    (hne : c.userId ≠ some u) :
    publishPost s cid (some u) now = (s, RouteResult.error 403 "Unauthorized") := by
  unfold publishPost
  rw [if_neg (by simp [jsTruthy, hu]), hlook]
  dsimp only
  rw [if_pos hne]

/-- The PUT handler applies the body unless the 403 guard fires. -/
theorem putCourse_success (s : Store) (cid : String) (body : CourseUpdate)
    (now : Nat) (c : Course)
    (hlook : s.lookup cid = some c)
    (hok : ¬(jsTruthy body.userId ∧ c.userId ≠ body.userId)) :
    putCourse s cid body now =
      (s.set cid (applyUpdate c body now), RouteResult.success ⟨true, cid⟩) := by
  unfold putCourse
  rw [hlook]
  dsimp only
  rw [if_neg hok]

/-- The PUT handler 403 path: truthy, non-matching body `userId`. -/
theorem putCourse_403 (s : Store) (cid : String) (body : CourseUpdate)
    (now : Nat) (c : Course)
    (hlook : s.lookup cid = some c)
    (hguard : jsTruthy body.userId ∧ c.userId ≠ body.userId) :
    putCourse s cid body now = (s, RouteResult.error 403 "Unauthorized") := by
  unfold putCourse
  rw [hlook]
  dsimp only
  rw [if_pos hguard]

/-- The generation handler on a valid request with a parse failure. -/
theorem generateCoursePost_parse_fail (s : Store) (req : GenReq) (t : String)
    (now : Nat) (newId : String)
    (hval : ¬(req.userId = "" ∨ req.category = "" ∨ req.topic = "" ∨
      req.difficulty = "" ∨ req.duration = ""))
    (hparse : parseAiJson t = none) :
    generateCoursePost s req t now newId =
      (s, RouteResult.error 500 "Failed to parse course structure") := by
  unfold generateCoursePost
  rw [if_neg hval, hparse]

/-- Generation writes only a fresh document: every existing course is left
untouched. -/
theorem generate_preserves_existing (s : Store) (req : GenReq) (t : String)
    (now : Nat) (newId : String) (cid : String)
    (hfresh : s.lookup newId = none) (hex : s.lookup cid ≠ none) :
    (generateCoursePost s req t now newId).1.lookup cid = s.lookup cid := by
  unfold generateCoursePost
  split
  · rfl
  · split
    · rfl
    · next parsed hp =>
      have hne : newId ≠ cid := by
        intro hid
        subst hid
        exact hex hfresh
      show (s.set newId (genCourseDoc req parsed now)).lookup cid = _
      rw [lookup_set_ne _ _ _ _ hne]

/-! Concrete fixtures for witnesses and counterexamples. -/

def sampleChapter : Chapter :=
  ⟨some "Intro", some "About intro", some "1 hour", none, none⟩

def sampleChapter2 : Chapter :=
  ⟨some "Advanced", some "Deep dive", some "2 hours", none, none⟩

def sampleCourse : Course :=
  ⟨some "user1", some "Sorting Algorithms", some "A course", some "Programming",
    some "Sorting", some "Beginner", some "3 hours", some 2,
    [some sampleChapter, some sampleChapter2], some true, some "draft",
    some 10, some 10, none⟩

def sampleStore : Store := [("c1", sampleCourse)]

def publishedSample : Course :=
  ⟨some "user1", some "Sorting Algorithms", some "A course", some "Programming",
    some "Sorting", some "Beginner", some "3 hours", some 2,
    [some sampleChapter, some sampleChapter2], some true, some "published",
    some 10, some 11, some 11⟩

def pubStore : Store := [("c1", publishedSample)]

/-- A PUT body whose only field is `status: "draft"`. -/
def draftBody : CourseUpdate :=
  ⟨none, none, none, none, none, none, none, none, none, none,
    some "draft", none, none⟩

/-- C1, counterexample: on the AI text `"\x7b"content": []\x7d also \x7b\x7d"`
the first balanced-brace span parses as JSON, so by the claim the operation
must parse exactly that span and succeed; the code instead matches greedily
from the first opening brace to the last closing brace, fails to parse, and
returns 500 with no store write. -/
theorem C1_counterexample :
    (firstBalancedSpan "\x7b\"content\": []\x7d also \x7b\x7d").bind parseJson
        = some (Json.obj [("content", Json.arr [])]) ∧
    chapterContentPost sampleStore
        ⟨"user1", "c1", some 0, "Intro", "Sorting", "Beginner"⟩
        "\x7b\"content\": []\x7d also \x7b\x7d" 7
      = (sampleStore, RouteResult.error 500 "Failed to parse chapter content") :=
  ⟨rfl, rfl⟩

/-- C1 (amended): both services extract the greedy span running from the
first opening brace to the last closing brace of the response text (not the
first balanced-brace span) and parse exactly that span; when the regex has
no match they parse the whole text; if that single parse attempt fails, the
operation fails with a 500 GenerationParseError and no store write — no
retry, no partial acceptance. -/
theorem C1_parse_policy :
    (∀ t sp : String, extractGreedy t = some sp →
      parseAiJson t = parseJson sp ∧
      ∃ a b : List Char, t.data = a ++ sp.data ++ b ∧ '{' ∉ a ∧ '}' ∉ b ∧
        ∃ m : List Char, sp.data = '{' :: m ++ ['}']) ∧
    (∀ t : String, extractGreedy t = none → parseAiJson t = parseJson t) ∧
    (∀ (s : Store) (req : ChapterReq) (t : String) (now : Nat) (c : Course),
      ¬(req.userId = "" ∨ req.courseId = "" ∨ req.chapterIndex = none ∨
        req.chapterName = "" ∨ req.courseTopic = "" ∨ req.difficulty = "") →
      s.lookup req.courseId = some c → c.userId = some req.userId →
      parseAiJson t = none →
      chapterContentPost s req t now =
        (s, RouteResult.error 500 "Failed to parse chapter content")) ∧
    (∀ (s : Store) (req : GenReq) (t : String) (now : Nat) (newId : String),
      ¬(req.userId = "" ∨ req.category = "" ∨ req.topic = "" ∨
        req.difficulty = "" ∨ req.duration = "") →
      parseAiJson t = none →
      generateCoursePost s req t now newId =
        (s, RouteResult.error 500 "Failed to parse course structure")) := by
  refine ⟨?_, ?_, ?_, ?_⟩
  · intro t sp h
    constructor
    · unfold parseAiJson
      rw [h]
    · exact extractGreedy_decomp t sp h
  · intro t h
    unfold parseAiJson
    rw [h]
  · intro s req t now c hval hlook hauth hp
    exact chapterContentPost_parse_fail s req t now c hval hlook hauth hp
  · intro s req t now newId hval hp
    exact generateCoursePost_parse_fail s req t now newId hval hp

theorem C1_parse_policy_witness :
    parseAiJson "x \x7b\"a\": 1\x7d y" = parseJson "\x7b\"a\": 1\x7d" ∧
    chapterContentPost sampleStore
        ⟨"user1", "c1", some 0, "Intro", "Sorting", "Beginner"⟩
        "plain prose reply" 7
      = (sampleStore, RouteResult.error 500 "Failed to parse chapter content") :=
  ⟨(C1_parse_policy.1 "x \x7b\"a\": 1\x7d y" "\x7b\"a\": 1\x7d" rfl).1,
    C1_parse_policy.2.2.1 sampleStore
      ⟨"user1", "c1", some 0, "Intro", "Sorting", "Beginner"⟩
      "plain prose reply" 7 sampleCourse (by decide) rfl rfl rfl⟩

/-- C2, counterexample: the claim includes PUT-update among the operations
under which `status` is monotonic, but a PUT whose body is
`\x7bstatus: "draft"\x7d` un-publishes a published course: the body is
spread verbatim over the document. -/
theorem C2_counterexample :
    (Store.lookup pubStore "c1").map Course.status = some (some "published") ∧
    ((applyOp pubStore (Op.putUpdate "c1" draftBody 20)).lookup "c1").map
        Course.status = some (some "draft") :=
  ⟨rfl, rfl⟩

/-- C2 (amended): `status` is monotonic under every specified operation
except a PUT update whose body carries a `status` field (which is written
verbatim and can un-publish): generation (with a fresh id), chapter-content
merge, video merge, publish, and status-free PUT updates never change a
published course's status away from `"published"`. -/
theorem C2_status_monotonic (s : Store) (op : Op) (cid : String) (c c' : Course)
    (hbody : opSetsStatusFromBody op = false)
    (hfresh : opFreshOk s op)
    (hc : s.lookup cid = some c)
    (hpub : c.status = some "published")
    (hc' : (applyOp s op).lookup cid = some c') :
    c'.status = some "published" := by
  cases op with
  | generate req t now newId =>
    have hpres := generate_preserves_existing s req t now newId cid hfresh
      (by rw [hc]; exact fun hx => Option.noConfusion hx)
    simp only [applyOp] at hc'
    rw [hpres, hc] at hc'
    cases hc'
    exact hpub
  | chapterContent req t now =>
    have hpres := chapterContent_preserves_status s req t now cid
    simp only [applyOp] at hc'
    rw [hc', hc] at hpres
    simp only [Option.map_some'] at hpres
    rw [Option.some.inj hpres, hpub]
  | fetchVideos req videos now =>
    have hpres := fetchVideos_preserves_status s req videos now cid
    simp only [applyOp] at hc'
    rw [hc', hc] at hpres
    simp only [Option.map_some'] at hpres
    rw [Option.some.inj hpres, hpub]
  | publish pcid uid now =>
    have hkeep := publish_keeps_published s pcid uid now cid c hc hpub
    simp only [applyOp] at hc'
    rw [hc'] at hkeep
    simp only [Option.map_some'] at hkeep
    exact Option.some.inj hkeep
  | putUpdate pcid body now =>
    have hnb : body.status = none := by
      simp only [opSetsStatusFromBody] at hbody
      cases hbs : body.status with
      | none => rfl
      | some v => rw [hbs] at hbody; simp at hbody
    have hpres := putUpdate_preserves_status s pcid body now cid hnb
    simp only [applyOp] at hc'
    rw [hc', hc] at hpres
    simp only [Option.map_some'] at hpres
    rw [Option.some.inj hpres, hpub]

theorem C2_status_monotonic_witness :
    (publishedCourse publishedSample 30).status = some "published" :=
  C2_status_monotonic pubStore (Op.publish "c1" (some "user1") 30) "c1"
    publishedSample (publishedCourse publishedSample 30) rfl trivial rfl rfl rfl

/-- C3: on every chapter-content, video-fetch, publish, or PUT-update
request that passes field validation, carries a present (truthy) `userId`
different from the stored course's `userId`, the response is the 403
`Unauthorized` error and the returned store is exactly the input store —
no write occurs. -/
theorem C3_auth_403 :
    (∀ (s : Store) (req : ChapterReq) (t : String) (now : Nat) (c : Course),
      ¬(req.userId = "" ∨ req.courseId = "" ∨ req.chapterIndex = none ∨
        req.chapterName = "" ∨ req.courseTopic = "" ∨ req.difficulty = "") →
      s.lookup req.courseId = some c → c.userId ≠ some req.userId →
      chapterContentPost s req t now = (s, RouteResult.error 403 "Unauthorized")) ∧
    (∀ (s : Store) (req : VideoReq) (videos : List YouTubeVideo) (now : Nat)
        (c : Course),
      ¬(req.userId = "" ∨ req.courseId = "" ∨ req.chapterIndex = none ∨
        req.chapterName = "" ∨ req.courseTopic = "") →
      s.lookup req.courseId = some c → c.userId ≠ some req.userId →
      fetchYoutubePost s req videos now = (s, RouteResult.error 403 "Unauthorized")) ∧
    (∀ (s : Store) (cid u : String) (now : Nat) (c : Course),
      u ≠ "" → s.lookup cid = some c → c.userId ≠ some u →
      publishPost s cid (some u) now = (s, RouteResult.error 403 "Unauthorized")) ∧
    (∀ (s : Store) (cid : String) (body : CourseUpdate) (now : Nat) (c : Course)
        (u : String),
      body.userId = some u → u ≠ "" → s.lookup cid = some c →
      c.userId ≠ some u →
      putCourse s cid body now = (s, RouteResult.error 403 "Unauthorized")) := by
  refine ⟨?_, ?_, ?_, ?_⟩
  · intro s req t now c hval hlook hne
    exact chapterContentPost_403 s req t now c hval hlook hne
  · intro s req videos now c hval hlook hne
    exact fetchYoutubePost_403 s req videos now c hval hlook hne
  · intro s cid u now c hu hlook hne
    exact publishPost_403 s cid u now c hu hlook hne
  · intro s cid body now c u hbu hu hlook hne
    exact putCourse_403 s cid body now c hlook
      ⟨by simp [jsTruthy, hbu, hu], by rw [hbu]; exact hne⟩

theorem C3_auth_403_witness :
    chapterContentPost sampleStore
        ⟨"mallory", "c1", some 0, "Intro", "Sorting", "Beginner"⟩ "text" 7
      = (sampleStore, RouteResult.error 403 "Unauthorized") :=
  C3_auth_403.1 sampleStore
    ⟨"mallory", "c1", some 0, "Intro", "Sorting", "Beginner"⟩ "text" 7
    sampleCourse (by decide) rfl (by decide)

/-- C4: a chapter-content request by the owner whose AI response text is
plain prose with no JSON braces (and not itself valid JSON) returns the 500
GenerationParseError, the store is returned unchanged, and in particular the
targeted course document — hence the chapter's `content` field — is exactly
what it was before the call. -/
theorem C4_prose_unchanged (s : Store) (req : ChapterReq) (t : String)
    (now : Nat) (c : Course)
    (hval : ¬(req.userId = "" ∨ req.courseId = "" ∨ req.chapterIndex = none ∨
      req.chapterName = "" ∨ req.courseTopic = "" ∨ req.difficulty = ""))
    (hlook : s.lookup req.courseId = some c)
    (hauth : c.userId = some req.userId)
    (hnob : '{' ∉ t.data ∧ '}' ∉ t.data)
    (hparse : parseJson t = none) :
    chapterContentPost s req t now =
      (s, RouteResult.error 500 "Failed to parse chapter content") ∧
    (chapterContentPost s req t now).1.lookup req.courseId = some c := by
  have hext : extractGreedy t = none := extractGreedy_none_of_no_open t hnob.1
  have hai : parseAiJson t = none := by
    unfold parseAiJson
    rw [hext]
    exact hparse
  have hmain := chapterContentPost_parse_fail s req t now c hval hlook hauth hai
  exact ⟨hmain, by rw [hmain]; exact hlook⟩

theorem C4_prose_unchanged_witness :
    chapterContentPost sampleStore
        ⟨"user1", "c1", some 0, "Intro", "Sorting", "Beginner"⟩
        "The chapter covers sorting basics." 7
      = (sampleStore, RouteResult.error 500 "Failed to parse chapter content") ∧
    (chapterContentPost sampleStore
        ⟨"user1", "c1", some 0, "Intro", "Sorting", "Beginner"⟩
        "The chapter covers sorting basics." 7).1.lookup "c1"
      = some sampleCourse :=
  C4_prose_unchanged sampleStore
    ⟨"user1", "c1", some 0, "Intro", "Sorting", "Beginner"⟩
    "The chapter covers sorting basics." 7 sampleCourse
    (by decide) rfl rfl (by decide) rfl

/-- C5: publishing an already-published course with the owner's `userId`
succeeds (no error), leaves `status = "published"`, and re-stamps both
`publishedAt` and `updatedAt` with the current server time. -/
theorem C5_publish_idempotent (s : Store) (cid u : String) (now : Nat)
    (c : Course)
    (hu : u ≠ "") (hlook : s.lookup cid = some c)
    (hauth : c.userId = some u)
    (hpub : c.status = some "published") :
    publishPost s cid (some u) now =
      (s.set cid (publishedCourse c now),
        RouteResult.success ⟨true, "Course published successfully", cid⟩) ∧
    (publishedCourse c now).status = some "published" ∧
    (publishedCourse c now).publishedAt = some now ∧
    (publishedCourse c now).updatedAt = some now :=
  ⟨publishPost_success s cid u now c hu hlook hauth, rfl, rfl, rfl⟩

/-- The `youtubeVideos` field of the chapter at `idx` of the course stored
under `cid`. -/
def chapterVideosAt (s : Store) (cid : String) (idx : Nat) : Option (List String) :=
  match s.lookup cid with
  | some c =>
    match jsGetIdx c.chapters idx with
    | some ch => ch.youtubeVideos
    | none => none
  | none => none

/-- C6: two successive video-fetch calls by the owner on the same in-range
chapter leave `chapters[idx].youtubeVideos` equal to exactly the identifier
sequence of the second call — a full replace, nothing of the first call's
result survives. -/
theorem C6_video_replace (s : Store) (req : VideoReq)
    (v1 v2 : List YouTubeVideo) (n1 n2 : Nat) (c : Course) (idx : Nat)
    (hval : ¬(req.userId = "" ∨ req.courseId = "" ∨ req.chapterIndex = none ∨
      req.chapterName = "" ∨ req.courseTopic = ""))
    (hidx : req.chapterIndex = some idx)
    (hlook : s.lookup req.courseId = some c)
    (hauth : c.userId = some req.userId)
    (hrange : idx < c.chapters.length) :
    chapterVideosAt
        (fetchYoutubePost (fetchYoutubePost s req v1 n1).1 req v2 n2).1
        req.courseId idx
      = some (v2.map (fun v => v.id.videoId)) := by
  have h1 := fetchYoutubePost_success s req v1 n1 c idx hval hidx hlook hauth
    (Nat.le_of_lt hrange)
  have hlook1 : (fetchYoutubePost s req v1 n1).1.lookup req.courseId
      = some (videoMergedCourse c (v1.map (fun v => v.id.videoId)) idx n1) := by
    rw [h1]
    exact lookup_set_self s req.courseId _
  have hauth1 : (videoMergedCourse c (v1.map (fun v => v.id.videoId)) idx n1).userId
      = some req.userId := hauth
  have hle1 : idx ≤ (videoMergedCourse c (v1.map (fun v => v.id.videoId)) idx
      n1).chapters.length := by
    show idx ≤ (jsSetIdx c.chapters idx
      (withVideos (jsGetIdx c.chapters idx) (v1.map (fun v => v.id.videoId)))).length
    rw [length_jsSetIdx_of_lt c.chapters idx _ hrange]
    exact Nat.le_of_lt hrange
  have h2 := fetchYoutubePost_success (fetchYoutubePost s req v1 n1).1 req v2 n2
    (videoMergedCourse c (v1.map (fun v => v.id.videoId)) idx n1) idx
    hval hidx hlook1 hauth1 hle1
  rw [h2]
  unfold chapterVideosAt
  rw [lookup_set_self]
  dsimp only
  rw [show (videoMergedCourse
      (videoMergedCourse c (v1.map (fun v => v.id.videoId)) idx n1)
      (v2.map (fun v => v.id.videoId)) idx n2).chapters
    = jsSetIdx (videoMergedCourse c (v1.map (fun v => v.id.videoId)) idx n1).chapters
        idx
        (withVideos
          (jsGetIdx (videoMergedCourse c (v1.map (fun v => v.id.videoId)) idx n1).chapters idx)
          (v2.map (fun v => v.id.videoId))) from rfl]
  rw [jsGetIdx_jsSetIdx_self]
  exact withVideos_youtubeVideos _ _

theorem C6_video_replace_witness :
    chapterVideosAt
        (fetchYoutubePost
          (fetchYoutubePost sampleStore
            ⟨"user1", "c1", some 0, "Intro", "Sorting", some "Beginner"⟩
            [⟨⟨"a1"⟩⟩, ⟨⟨"a2"⟩⟩] 5).1
          ⟨"user1", "c1", some 0, "Intro", "Sorting", some "Beginner"⟩
          [⟨⟨"b1"⟩⟩] 6).1
        "c1" 0
      = some ["b1"] :=
  C6_video_replace sampleStore
    ⟨"user1", "c1", some 0, "Intro", "Sorting", some "Beginner"⟩
    [⟨⟨"a1"⟩⟩, ⟨⟨"a2"⟩⟩] [⟨⟨"b1"⟩⟩] 5 6 sampleCourse 0
    (by decide) rfl rfl rfl (by decide)

theorem C5_publish_idempotent_witness :
    publishPost pubStore "c1" (some "user1") 42 =
      (pubStore.set "c1" (publishedCourse publishedSample 42),
        RouteResult.success ⟨true, "Course published successfully", "c1"⟩) ∧
    (publishedCourse publishedSample 42).status = some "published" ∧
    (publishedCourse publishedSample 42).publishedAt = some 42 ∧
    (publishedCourse publishedSample 42).updatedAt = some 42 :=
  C5_publish_idempotent pubStore "c1" "user1" 42 publishedSample
    (by decide) rfl rfl rfl

/-- C9: the PUT course update checks ownership only when the body carries a
truthy `userId`: with an absent or falsy body `userId` the update is
applied unconditionally, and the response is the 403 error exactly when the
body `userId` is a present non-empty string different from the stored
owner. -/
theorem C9_put_auth (s : Store) (cid : String) (body : CourseUpdate)
    (now : Nat) (c : Course) (hlook : s.lookup cid = some c) :
    (jsTruthy body.userId = false →
      putCourse s cid body now =
        (s.set cid (applyUpdate c body now), RouteResult.success ⟨true, cid⟩)) ∧
    ((putCourse s cid body now).2 = RouteResult.error 403 "Unauthorized" ↔
      ∃ u : String, body.userId = some u ∧ u ≠ "" ∧ c.userId ≠ some u) := by
  constructor
  · intro hfalse
    refine putCourse_success s cid body now c hlook ?_
    intro hand
    rw [hfalse] at hand
    exact absurd hand.1 (by decide)
  · constructor
    · intro h403
      by_cases hguard : jsTruthy body.userId = true ∧ c.userId ≠ body.userId
      · obtain ⟨htru, hne⟩ := hguard
        cases hbu : body.userId with
        | none => rw [hbu] at htru; exact absurd htru (by decide)
        | some u =>
          refine ⟨u, rfl, ?_, ?_⟩
          · rw [hbu] at htru
            simpa [jsTruthy] using htru
          · rw [hbu] at hne
            exact hne
      · have hsucc := putCourse_success s cid body now c hlook
          (fun hand => hguard ⟨hand.1, hand.2⟩)
        rw [hsucc] at h403
        cases h403
    · rintro ⟨u, hbu, hu, hne⟩
      have h403 := putCourse_403 s cid body now c hlook
        ⟨by simp [jsTruthy, hbu, hu], by rw [hbu]; exact hne⟩
      rw [h403]

/-- The C9 witness body: a rename with no `userId` field. -/
def c9body : CourseUpdate :=
  ⟨none, some "Renamed course", none, none, none, none, none, none, none,
    none, none, none, none⟩

theorem C9_put_auth_witness :
    putCourse sampleStore "c1" c9body 9 =
      (sampleStore.set "c1" (applyUpdate sampleCourse c9body 9),
        RouteResult.success ⟨true, "c1"⟩) :=
  (C9_put_auth sampleStore "c1" c9body 9 sampleCourse rfl).1 rfl

end CourseGpt
